import Mathlib

/-!
Verification development for the better-lyrics cf-api repository: shallow
embedding of the lyric orchestration, tiered caching, and time-alignment
subsystem, together with theorems settling the specification claims.

Numbers that the TypeScript code manipulates as JS doubles are modelled as
exact rationals; the single reachable source of NaN -- dividing by zero in
meanAndVariance when the sample array is empty -- is modelled explicitly by
the JsNum type below.
-/

namespace BetterLyrics

/-- A JS number as used by the alignment statistics: either a finite value
(modelled exactly as a rational) or NaN, which arises from the division
0 / 0 in meanAndVariance when the sample array is empty. -/
inductive JsNum where
  | nan : JsNum
  | num (q : ℚ) : JsNum
deriving DecidableEq, Repr

/-- JS comparison x < c where x may be NaN: any comparison with NaN is false. -/
def jsLtNum (x : JsNum) (c : ℚ) : Bool :=
  match x with
  | .nan => false
  | .num q => decide (q < c)

/-- JS truthiness of an optional string field (null / undefined / empty
string are falsy). -/
def jsTruthyStr : Option String → Bool
  | none => false
  | some s => s ≠ ""

/-- Sample mean of meanAndVariance (src/providers/Musixmatch.ts): the JS
reduce with plus and initial accumulator 0 is the list sum. -/
def sampleMean (arr : List ℚ) : ℚ := arr.sum / arr.length

/-- Population variance of meanAndVariance (src/providers/Musixmatch.ts). -/
def sampleVariance (arr : List ℚ) : ℚ :=
  (arr.map (fun v => (v - sampleMean arr) ^ 2)).sum / arr.length

/-- Result record of meanAndVariance. -/
structure MeanVar where
  mean : JsNum
  variance : JsNum
deriving DecidableEq, Repr

/-- meanAndVariance from src/providers/Musixmatch.ts: sum divided by
length, then the averaged squared deviations.  On the empty array both
divisions are 0 / 0, which is NaN in JS. -/
def meanAndVariance (arr : List ℚ) : MeanVar :=
  match arr with
  | [] => ⟨.nan, .nan⟩
  | _ :: _ => ⟨.num (sampleMean arr), .num (sampleVariance arr)⟩

/-- addPlusSign from src/providers/Musixmatch.ts: positive numbers get a
leading plus before string interpolation. -/
def addPlusSign (num : JsNum) : String :=
  match num with
  | .nan => "NaN"
  | .num q => if q > 0 then "+" ++ toString q else toString q

/-- MatchingTimedWord from src/providers/Musixmatch.ts: an alignment token,
a word together with its absolute time in seconds, where -1 is the
no-timestamp sentinel. -/
structure MatchingTimedWord where
  word : String
  wordTime : ℚ
deriving DecidableEq, Repr

/-- JS String.toLowerCase modelled on the ASCII range: upper-case ASCII
letters are shifted to lower case, all other characters are unchanged. -/
def jsCharLower (c : Char) : Char :=
  if 'A' ≤ c ∧ c ≤ 'Z' then Char.ofNat (c.toNat + 32) else c

/-- JS String.toLowerCase over a whole string (ASCII model). -/
def jsToLower (s : String) : String := ⟨s.data.map jsCharLower⟩

/-- The comparator key of the diff call in getLrcWordByWord: tokens are
compared by lower-cased word. -/
def tokKey (t : MatchingTimedWord) : String := jsToLower t.word

/-- Fuel-indexed longest-common-subsequence length over key sequences.
The fuel is always at least the sum of the two lengths at every call, so
the fuel-zero branch is unreachable. -/
def lcsAux : Nat → List String → List String → Nat
  | 0, _, _ => 0
  | _ + 1, [], _ => 0
  | _ + 1, _ :: _, [] => 0
  | n + 1, a :: as, b :: bs =>
    if a = b then lcsAux n as bs + 1
    else max (lcsAux n as (b :: bs)) (lcsAux n (a :: as) bs)

/-- Longest-common-subsequence length of two key sequences. -/
def lcsLen (l r : List String) : Nat := lcsAux (l.length + r.length) l r

/-- One component of the diff output, mirroring the change objects produced
by the diff library: removed marks tokens present only on the left (old)
side, added marks tokens present only on the right (new) side, and a
component with neither flag is a run of matched tokens; value holds the
component tokens and count is its length. -/
structure DiffChange where
  removed : Bool
  added : Bool
  value : List MatchingTimedWord
deriving DecidableEq, Repr

/-- Prepend a one-token change to a change list, merging it into the head
when the head carries the same removed / added flags, so that maximal runs
are reported as single components as the diff library does. -/
def consChange (c : DiffChange) : List DiffChange → List DiffChange
  | [] => [c]
  | d :: ds =>
    if c.removed = d.removed ∧ c.added = d.added then
      ⟨c.removed, c.added, c.value ++ d.value⟩ :: ds
    else c :: d :: ds

/-- Modelled from the spec: the case-insensitive longest-common-subsequence
style diff over two token sequences, classifying runs as matched,
left-only (removed) and right-only (added).  The TypeScript calls
diffArrays of the third-party diff package with a lower-cased word
comparator; that library is not part of this repository, so the diff is
modelled as a standard LCS edit script, fuel-indexed for executability.
Matched components consume one token from each side, removed components
consume left tokens, added components consume right tokens; matched and
added components report the right-side tokens as their value. -/
def diffAux : Nat → List MatchingTimedWord → List MatchingTimedWord → List DiffChange
  | 0, _, _ => []
  | _ + 1, [], [] => []
  | _ + 1, [], b :: bs => [⟨false, true, b :: bs⟩]
  | _ + 1, a :: as, [] => [⟨true, false, a :: as⟩]
  | n + 1, a :: as, b :: bs =>
    if tokKey a = tokKey b then
      consChange ⟨false, false, [b]⟩ (diffAux n as bs)
    else if lcsLen (as.map tokKey) ((b :: bs).map tokKey)
            ≥ lcsLen ((a :: as).map tokKey) (bs.map tokKey) then
      consChange ⟨true, false, [a]⟩ (diffAux n as (b :: bs))
    else
      consChange ⟨false, true, [b]⟩ (diffAux n (a :: as) bs)

/-- The diff of two token sequences, supplied with sufficient fuel. -/
def diffArrays (l r : List MatchingTimedWord) : List DiffChange :=
  diffAux (l.length + r.length) l r

/-- One entry of the diffDebug list built in getLrcWordByWord: an operation
tag (MATCH, REMOVED or ADDED) and the concatenated words of the run. -/
structure DiffDebugEntry where
  op : String
  text : String
deriving DecidableEq, Repr

/-- The concatenated words of a change, as change.value.map over word
joined with the empty separator. -/
def changeText (ts : List MatchingTimedWord) : String :=
  String.join (ts.map (·.word))

/-- The diff.forEach walk of getLrcWordByWord (src/providers/Musixmatch.ts):
walk the change list keeping indices into the two original token arrays;
on a matched run, record the signed offset right minus left for every
paired position where both tokens carry a real timestamp (not -1), and
advance both indices; a removed run advances the left index, an added run
the right index.  Returns the collected offset samples and the debug log.
Indexing into the arrays is rendered by drop and take, which agrees with
the JS index arithmetic because every index stays in bounds. -/
def collectWalk (left right : List MatchingTimedWord) :
    List DiffChange → Nat → Nat → List ℚ × List DiffDebugEntry
  | [], _, _ => ([], [])
  | ch :: rest, li, ri =>
    let n := ch.value.length
    if ch.removed = false ∧ ch.added = false then
      let pairs := List.zip ((left.drop li).take n) ((right.drop ri).take n)
      let samples := pairs.filterMap fun p =>
        if p.1.wordTime ≠ -1 ∧ p.2.wordTime ≠ -1 then some (p.2.wordTime - p.1.wordTime)
        else none
      let rec' := collectWalk left right rest (li + n) (ri + n)
      (samples ++ rec'.1, ⟨"MATCH", changeText ch.value⟩ :: rec'.2)
    else if ch.added = false then
      let rec' := collectWalk left right rest (li + n) ri
      (rec'.1, ⟨"REMOVED", changeText ch.value⟩ :: rec'.2)
    else
      let rec' := collectWalk left right rest li (ri + n)
      (rec'.1, ⟨"ADDED", changeText ch.value⟩ :: rec'.2)

/-- The offset samples collected by getLrcWordByWord for a pair of token
sequences. -/
def alignSamples (left right : List MatchingTimedWord) : List ℚ :=
  (collectWalk left right (diffArrays left right) 0 0).1

/-- The diagnostic object attached as lyricMatchingStats. -/
structure MatchingStats where
  mean : JsNum
  variance : JsNum
  samples : List ℚ
  diff : List DiffDebugEntry
deriving DecidableEq, Repr

/-- The debugInfo object of a LyricsResponse: an optional
lyricMatchingStats diagnostic and an optional comment. -/
structure DebugInfo where
  lyricMatchingStats : Option MatchingStats
  comment : Option String
deriving DecidableEq, Repr

/-- LyricsResponse (src/LyricUtils.ts shape as used by the providers):
independently optional word-level (richSynced), line-level (synced),
plain (unsynced) and ttml transcripts plus debug metadata. -/
structure LyricsResponse where
  richSynced : Option String
  synced : Option String
  unsynced : Option String
  debugInfo : Option DebugInfo
  ttml : Option String
deriving DecidableEq, Repr

/-- The alignment body of getLrcWordByWord (src/providers/Musixmatch.ts,
the branch taken when a synced basic transcript is available): guard both
token sequences at 5000 tokens, diff them, collect offset samples, compute
mean and variance, and accept (variance below 1.5: prefix the word-level
transcript with a global offset annotation equal to the mean) or reject
(otherwise: drop the word-level transcript).  The synced field of the
result is in both cases the synced transcript from the basic-subtitle fetch of this same provider
basic-subtitle fetch (musixmatchBasicLyrics), passed here as mxmSynced;
lrcStr is the word-level transcript string built from the richsync body,
and parsedToks / richToks are the two token sequences being aligned. -/
def alignWithBasic (lrcStr : String) (parsedToks richToks : List MatchingTimedWord)
    (mxmSynced : Option String) : LyricsResponse :=
  if parsedToks.length > 5000 ∨ richToks.length > 5000 then
    ⟨none, mxmSynced, none, some ⟨none, some "lyrics too long to diff"⟩, none⟩
  else
    let walked := collectWalk parsedToks richToks (diffArrays parsedToks richToks) 0 0
    let mv := meanAndVariance walked.1
    if jsLtNum mv.variance (3 / 2) then
      ⟨some ("[offset:" ++ addPlusSign mv.mean ++ "]\n" ++ lrcStr), mxmSynced, none,
        some ⟨some ⟨mv.mean, mv.variance, walked.1, walked.2⟩, none⟩, none⟩
    else
      ⟨none, mxmSynced, none,
        some ⟨some ⟨mv.mean, mv.variance, walked.1, walked.2⟩,
          some "basic lyrics matched but variance is too high; using basic lyrics instead"⟩,
        none⟩

/-- The decision core of getLrcWordByWord after the richsync fetch: if the
awaited basic transcript has truthy synced lyrics (basicSynced), run the
alignment on the token sequences; otherwise return the bare word-level
transcript annotated that no synced basic lyrics were found.  parsedToks
is the tokenization (via parseLrc, a repository module not under src) of
basicSynced, passed explicitly. -/
def getLrcWordByWordCore (lrcStr : String) (richToks : List MatchingTimedWord)
    (basicSynced : Option String) (parsedToks : List MatchingTimedWord)
    (mxmSynced : Option String) : LyricsResponse :=
  if jsTruthyStr basicSynced then
    alignWithBasic lrcStr parsedToks richToks mxmSynced
  else
    ⟨some lrcStr, none, none, some ⟨none, some "no synced basic lyrics found"⟩, none⟩

/-! ### Multi-tier cache (CacheService, src/services/CacheService.ts) -/

/-- The SourcePlatform union of CacheService. -/
inductive SourcePlatform where
  | youtube_music | spotify | apple_music | musixmatch | golyrics | lrclib
deriving DecidableEq, Repr

/-- The deployment configuration values read by the cache and the
providers.  The TypeScript reads optional environment strings and parses
them with parseInt / parseFloat; they are modelled as already parsed
values, with none covering both an unset and an empty (falsy) variable.
TTL and threshold configuration values are nonnegative seconds. -/
structure Env where
  REFETCH_THRESHOLD : Option Nat
  REFETCH_CHANCE : Option ℚ
  NEGATIVE_CACHE_TTL_LRCLIB : Option Nat
  NEGATIVE_CACHE_TTL_MUSIXMATCH : Option Nat

/-- The negative_mappings table: created_at per (source_platform,
source_track_id), none when no row exists. -/
def NegDB : Type := SourcePlatform → String → Option Int

/-- The result object of CacheService.getNegative.  It is always an
object, never null. -/
structure NegResult where
  hit : Bool
  stale : Bool
deriving DecidableEq, Repr

/-- The platform-specific negative-cache TTL chosen by getNegative:
lrclib uses its env override or one day, youtube_music (mapped to
Musixmatch in provider logic) uses its env override or three days, all
other platforms use the seven-day default. -/
def negCacheTtl (env : Env) (p : SourcePlatform) : Int :=
  if p = .lrclib then (env.NEGATIVE_CACHE_TTL_LRCLIB.getD 86400 : Nat)
  else if p = .youtube_music then (env.NEGATIVE_CACHE_TTL_MUSIXMATCH.getD (3 * 86400) : Nat)
  else ((7 * 86400 : Nat) : Int)

/-- CacheService.getNegative: no row is a miss; a row older than the
platform TTL is a stale hit, otherwise a fresh hit. -/
def CacheService.getNegative (env : Env) (db : NegDB) (now : Int)
    (p : SourcePlatform) (id : String) : NegResult :=
  match db p id with
  | none => ⟨false, false⟩
  | some createdAt =>
    if now - createdAt > negCacheTtl env p then ⟨true, true⟩ else ⟨true, false⟩

/-- CacheService.saveNegative: upsert of the row, refreshing created_at. -/
def CacheService.saveNegative (db : NegDB) (now : Int)
    (p : SourcePlatform) (id : String) : NegDB :=
  fun p' id' => if p' = p ∧ id' = id then some now else db p' id'

/-- The raw DELETE FROM negative_mappings statement issued by the
providers after a successful upstream fetch. -/
def deleteNegativeRow (db : NegDB) (p : SourcePlatform) (id : String) : NegDB :=
  fun p' id' => if p' = p ∧ id' = id then none else db p' id'

/-- The LyricType union of CacheService. -/
inductive LyricType where
  | rich_sync | normal_sync | ttml
deriving DecidableEq, Repr

/-- The string tag of a lyric format, as used in blob keys. -/
def LyricType.str : LyricType → String
  | .rich_sync => "rich_sync"
  | .normal_sync => "normal_sync"
  | .ttml => "ttml"

/-- A cached lyric, a format together with the decompressed content. -/
structure Lyric where
  format : LyricType
  content : String
deriving DecidableEq, Repr

/-- SaveLyricsData of CacheService. -/
structure SaveLyricsData where
  source_platform : SourcePlatform
  source_track_id : String
  musixmatch_track_id : Option Int
  lyric_content : String
  lyric_format : LyricType

/-- Modelled from the spec: the pako compression codec (a third-party
library, not part of this repository); the spec describes the blob value
as a generic compressed encoding of UTF-8 text whose decompression
restores the text byte-identically, so compression is modelled as an
abstract invertible wrapping of the text. -/
structure Deflated where
  payload : String
deriving DecidableEq, Repr

/-- pako.deflate (modelled, see Deflated). -/
def pako.deflate (s : String) : Deflated := ⟨s⟩

/-- pako.inflate with the to-string option (modelled, see Deflated). -/
def pako.inflate (d : Deflated) : String := d.payload

/-- One row of the go_lyrics_cache table. -/
structure GoRow where
  r2_key : String
  last_accessed_at : Int
  last_updated_at : Int
deriving DecidableEq, Repr

/-- The storage state touched by the go-lyrics cache: the go_lyrics_cache
relational table keyed by (video_id, source_platform) and the blob bucket
keyed by object key. -/
structure CacheState where
  goDb : String → SourcePlatform → Option GoRow
  bucket : String → Option Deflated

/-- CacheService.saveGoLyrics: compress the content, write the blob under
key source_track_id/format.gz, and upsert the go_lyrics_cache row with
both timestamps set to now.  The boolean success result and the
try/catch swallowing of store errors are outside this model. -/
def CacheService.saveGoLyrics (st : CacheState) (now : Int) (data : SaveLyricsData) : CacheState :=
  let r2Key := data.source_track_id ++ "/" ++ data.lyric_format.str ++ ".gz"
  { goDb := fun vid p =>
      if vid = data.source_track_id ∧ p = data.source_platform then some ⟨r2Key, now, now⟩
      else st.goDb vid p,
    bucket := fun k => if k = r2Key then some (pako.deflate data.lyric_content) else st.bucket k }

/-- CacheService.getGoLyrics: look up the row, fall back from a falsy
(zero) last_updated_at to last_accessed_at, fetch and decompress the
blob; a missing row or missing blob is a miss.  The conditional
asynchronous bump of last_accessed_at is a fire-and-forget side write
that does not affect the returned value and is not modelled. -/
def CacheService.getGoLyrics (st : CacheState) (p : SourcePlatform) (id : String) :
    Option (List Lyric × Int) :=
  match st.goDb id p with
  | none => none
  | some row =>
    let lastUpdatedAt := if row.last_updated_at ≠ 0 then row.last_updated_at else row.last_accessed_at
    match st.bucket row.r2_key with
    | none => none
    | some obj => some ([⟨.ttml, pako.inflate obj⟩], lastUpdatedAt)

/-! ### Line/plain-text provider (LrcLib, src/providers/LrcLib.ts) -/

/-- The fields of the LrcLib response JSON that the provider reads. -/
structure LrcLibJson where
  syncedLyrics : Option String
  plainLyrics : Option String
deriving DecidableEq, Repr

/-- The outcome of one upstream HTTP exchange: a status code together
with the parse result of the body (none models res.json() throwing), or
a transport error thrown by fetch itself. -/
inductive UpstreamResult where
  | response (status : Nat) (json : Option LrcLibJson)
  | transportError
deriving DecidableEq, Repr

/-- res.ok of the fetch API: status in the 200 to 299 range. -/
def httpOk (status : Nat) : Bool := 200 ≤ status ∧ status < 300

/-- LrcLib.fetchAndSave: 404 responses are negative-cached and yield no
result; any other non-success status, a transport error, or a body parse
error yields no result without touching the negative cache; a successful
parse yields the synced and plain lyrics and deletes the negative-cache
row for (lrclib, videoId). -/
def LrcLib.fetchAndSave (db : NegDB) (now : Int) (videoId : String)
    (res : UpstreamResult) : Option LyricsResponse × NegDB :=
  match res with
  | .transportError => (none, db)
  | .response status json =>
    if status = 404 then (none, CacheService.saveNegative db now .lrclib videoId)
    else if ¬ httpOk status then (none, db)
    else
      match json with
      | none => (none, db)
      | some j =>
        (some ⟨none, j.syncedLyrics, j.plainLyrics, none, none⟩,
          deleteNegativeRow db .lrclib videoId)

/-! ### Word-level provider (Musixmatch, src/providers/Musixmatch.ts) -/

/-- The positive-cache record returned by
CacheService.getMusixmatchLyrics. -/
structure MxmCached where
  lyrics : List Lyric
  lastUpdatedAt : Int
deriving DecidableEq, Repr

/-- Musixmatch refetch threshold: env override or the one-week default. -/
def mxmRefetchThreshold (env : Env) : Int := env.REFETCH_THRESHOLD.getD (7 * 86400)

/-- Musixmatch refetch chance: env override or the 20 percent default. -/
def mxmRefetchChance (env : Env) : ℚ := env.REFETCH_CHANCE.getD (1 / 5)

/-- What Musixmatch.getLrc does with the positive-cache lookup result:
serve the cached response, or fall through to the upstream fetch of step
3 (which is also what a stale entry with a successful random draw does:
forceRefetch skips the cached return and the method continues into the
blocking upstream fetch). -/
inductive MxmCacheDecision where
  | serveCached (r : LyricsResponse)
  | fetchUpstream
deriving DecidableEq, Repr

/-- The loop over cachedData.lyrics in Musixmatch.getLrc: the last
rich_sync row wins for the first component, the last normal_sync row for
the second. -/
def cachedFormats (lyrics : List Lyric) : Option String × Option String :=
  lyrics.foldl
    (fun acc l =>
      if l.format = .rich_sync then (some l.content, acc.2)
      else if l.format = .normal_sync then (acc.1, some l.content)
      else acc)
    (none, none)

/-- Step 2 of Musixmatch.getLrc (the positive-cache branch): with no
cached record, fetch upstream; with one, set forceRefetch when the entry
is older than the threshold and the uniform draw is below the chance,
and either return the cached formats immediately (not forced) or fall
through to the blocking upstream fetch (forced). -/
def Musixmatch.positiveCacheStep (env : Env) (now : Int) (draw : ℚ)
    (cachedData : Option MxmCached) : MxmCacheDecision :=
  match cachedData with
  | none => .fetchUpstream
  | some cd =>
    let forceRefetch :=
      decide (now - cd.lastUpdatedAt > mxmRefetchThreshold env) && decide (draw < mxmRefetchChance env)
    if forceRefetch then .fetchUpstream
    else
      let fmts := cachedFormats cd.lyrics
      .serveCached ⟨fmts.1, fmts.2, none, some ⟨none, some "musixmatch cache"⟩, none⟩

/-- The observable operations of one Musixmatch.getLrc call, in order:
reads of the two cache tiers, awaiting the token, upstream HTTP actions,
and the cache writes registered at the end. -/
inductive MxmEffect where
  | negativeCacheRead
  | positiveCacheRead
  | tokenAwait
  | upstream (action : String)
  | savePositive (format : LyricType)
  | saveNegativeWrite
deriving DecidableEq, Repr

/-- The capability flags of the matcher.track.get response track. -/
structure TrackFlags where
  has_richsync : Bool
  has_subtitles : Bool
deriving DecidableEq, Repr

/-- The per-call inputs of Musixmatch.getLrc: the cache state, the clock
and random draw, the token visible after awaiting the token promise, and
oracles for the upstream responses (matcher status and flags, and the
results the two lyric sub-fetches would produce).  The process-wide token
reset on a 401 matcher status mutates module state and is outside this
model. -/
structure MxmFetchCtx where
  negDb : NegDB
  cached : Option MxmCached
  now : Int
  draw : ℚ
  token : Option String
  matcherStatus : Int
  matcherTrack : TrackFlags
  richsyncResult : Option LyricsResponse
  subtitleResult : Option LyricsResponse

/-- JS truthiness of an object value: an object is always truthy.  The
negative-cache check of Musixmatch.getLrc tests the NegResult record
returned by CacheService.getNegative with a bare if, so the test is on
the object itself, not on its hit field. -/
def jsTruthyObject (_ : NegResult) : Bool := true

/-- Musixmatch.getLrc: step 1 tests the getNegative record for
truthiness and returns null on a hit; step 2 consults the positive cache
(Musixmatch.positiveCacheStep); step 3 awaits the token, calls the
matcher, negative-caches a 404 matcher status, branches on the richsync
and subtitle capability flags, persists found formats and
negative-caches a resolved-but-empty result.  Returns the response and
the trace of performed operations. -/
def Musixmatch.getLrc (env : Env) (ctx : MxmFetchCtx) (videoId : String) :
    Option LyricsResponse × List MxmEffect :=
  let isNegative := CacheService.getNegative env ctx.negDb ctx.now .youtube_music videoId
  if jsTruthyObject isNegative then (none, [.negativeCacheRead])
  else
    match Musixmatch.positiveCacheStep env ctx.now ctx.draw ctx.cached with
    | .serveCached r => (some r, [.negativeCacheRead, .positiveCacheRead])
    | .fetchUpstream =>
      match ctx.token with
      | none => (none, [.negativeCacheRead, .positiveCacheRead, .tokenAwait])
      | some _ =>
        let base := [MxmEffect.negativeCacheRead, .positiveCacheRead, .tokenAwait,
          .upstream "matcher.track.get"]
        if ctx.matcherStatus ≠ 200 then
          (none, base ++ if ctx.matcherStatus = 404 then [.saveNegativeWrite] else [])
        else
          let subCall :=
            if ctx.matcherTrack.has_richsync then [MxmEffect.upstream "track.richsync.get"]
            else if ctx.matcherTrack.has_subtitles then [MxmEffect.upstream "track.subtitle.get"]
            else []
          let result :=
            if ctx.matcherTrack.has_richsync then ctx.richsyncResult
            else if ctx.matcherTrack.has_subtitles then ctx.subtitleResult
            else none
          match result with
          | some r =>
            (some r, base ++ subCall
              ++ (if jsTruthyStr r.richSynced then [MxmEffect.savePositive .rich_sync] else [])
              ++ (if jsTruthyStr r.synced then [MxmEffect.savePositive .normal_sync] else []))
          | none => (none, base ++ subCall ++ [.saveNegativeWrite])

/-! ### Markup-synced provider (GoLyricsApi, src/providers/GoLyricsApi.ts) -/

/-- GoLyricsApi refetch threshold: env override or the zero-day default. -/
def goRefetchThreshold (env : Env) : Int := env.REFETCH_THRESHOLD.getD 0

/-- GoLyricsApi refetch chance: env override or the default of 1. -/
def goRefetchChance (env : Env) : ℚ := env.REFETCH_CHANCE.getD 1

/-- The loop over cachedData.lyrics in GoLyricsApi.getLrc: the last ttml
row wins. -/
def lastTtml (lyrics : List Lyric) : Option String :=
  lyrics.foldl (fun acc l => if l.format = .ttml then some l.content else acc) none

/-- The observable outcome of GoLyricsApi.getLrc before any blocking
upstream work: a returned value, together with whether a background
fetchAndSave was registered (await-listed, not awaited), or the fall
through to the synchronous fetchAndSave of step 3. -/
inductive GoOutcome where
  | value (r : Option LyricsResponse) (backgroundRefetch : Bool)
  | blockingFetch
deriving DecidableEq, Repr

/-- GoLyricsApi.getLrc (the stale-while-revalidate revision): a negative
hit returns null, registering a background refetch when the hit is
stale; a positive-cache record is returned immediately, registering a
background refetch when it is older than the threshold and the draw is
below the chance; only a full cache miss falls through to the blocking
fetch. -/
def GoLyricsApi.getLrcCore (env : Env) (now : Int) (draw : ℚ)
    (negativeStatus : NegResult) (cachedData : Option (List Lyric × Int)) : GoOutcome :=
  if negativeStatus.hit then .value none negativeStatus.stale
  else
    match cachedData with
    | none => .blockingFetch
    | some cd =>
      let shouldRefetch :=
        decide (now - cd.2 > goRefetchThreshold env) && decide (draw < goRefetchChance env)
      .value (some ⟨none, none, none, some ⟨none, some "goLyricsApi cache"⟩, lastTtml cd.1⟩)
        shouldRefetch

/-! ### Orchestrator (LyricsService.getLyrics) -/

/-- JS single-character String.split. -/
def jsSplitList (sep : Char) : List Char → List String
  | [] => [""]
  | c :: cs =>
    let rest := jsSplitList sep cs
    if c = sep then "" :: rest
    else
      match rest with
      | [] => [String.mk [c]]
      | h :: t => String.mk (c :: h.data) :: t

/-- JS String.split on a one-character separator. -/
def jsSplit (sep : Char) (s : String) : List String := jsSplitList sep s.data

/-- Whitespace as stripped by JS String.trim (common ASCII whitespace). -/
def jsIsSpace (c : Char) : Bool := c = ' ' ∨ c = '\t' ∨ c = '\n' ∨ c = '\r'

/-- JS String.trim. -/
def jsTrim (s : String) : String :=
  String.mk (((s.data.dropWhile jsIsSpace).reverse.dropWhile jsIsSpace).reverse)

/-- The artist preprocessing of LyricsService.getLyrics: split on commas,
then on ampersands, trim, and drop empty entries. -/
def splitArtists (artist : String) : List String :=
  (((jsSplit ',' artist).map (jsSplit '&')).flatten.map jsTrim).filter (fun a => a.length > 0)

/-- Array.prototype.join with a separator. -/
def joinSep (sep : String) : List String → String
  | [] => ""
  | [x] => x
  | x :: y :: xs => x ++ sep ++ joinSep sep (y :: xs)

/-- isTruthy of src/utils.ts: only null and undefined are falsy (an empty
string counts as present). -/
def isTruthy (v : Option String) : Bool := v.isSome

/-- The grace period (milliseconds) the orchestrator waits for the still
pending LrcLib promise after the other providers settle: 4 when a
markup-synced (ttml) result was found, 0.5 otherwise. -/
def lrcLibGraceMs (goTtmlFound : Bool) : ℚ := if goTtmlFound then 4 else 1 / 2

/-- The request parameters read from the query string. -/
structure RequestParams where
  videoId : Option String
  artist : Option String
  song : Option String
  album : Option String
  duration : Option String
  alwaysFetchMetadata : Bool

/-- The result of the external metadata resolver. -/
structure Metadata where
  found : Bool
  song : Option String
  artists : Option (List String)
  album : Option String
  duration : Option String

/-- The outcomes of the three concurrent provider calls as seen by the
orchestrator: each either resolves with an optional response or rejects
with an error.  lrclibResolvedInTime records whether the LrcLib promise
settled before the orchestrator finished its capped wait and returned. -/
structure ProviderOutcomes where
  lrclib : Except String (Option LyricsResponse)
  lrclibResolvedInTime : Bool
  musixmatch : Except String (Option LyricsResponse)
  golyrics : Except String (Option LyricsResponse)

/-- The unified response record assembled by LyricsService.getLyrics
(the parsedSongAndArtist and description fields, constant null on this
path, are omitted). -/
structure UnifiedResponse where
  song : Option String
  artist : Option String
  album : Option String
  duration : Option String
  videoId : Option String
  debugInfo : Option DebugInfo
  musixmatchWordByWordLyrics : Option String
  musixmatchSyncedLyrics : Option String
  lrclibSyncedLyrics : Option String
  lrclibPlainLyrics : Option String
  goLyricsApiTtml : Option String
deriving DecidableEq, Repr

/-- The outcome of one orchestrator call: a thrown error, the early
no-identity message response, or the unified aggregate response. -/
inductive OrchResult where
  | thrown (message : String)
  | missingIdentity (song artist album duration videoId : Option String)
  | response (r : UnifiedResponse)
deriving DecidableEq, Repr

/-- Whether the orchestrator call rejected. -/
def OrchResult.isError : OrchResult → Bool
  | .thrown _ => true
  | _ => false

/-- The identity-resolution prelude of LyricsService.getLyrics: split
the artist parameter, decide whether the metadata resolver must be
consulted, and fill song, artists, artist, album and duration from a
found metadata record. -/
def resolveIdentity (p : RequestParams) (metadata : Option Metadata) :
    Option String × List String × Option String × Option String × Option String :=
  let artists0 := if jsTruthyStr p.artist then splitArtists (p.artist.getD "") else []
  let needMeta := p.alwaysFetchMetadata || !jsTruthyStr p.song
    || jsTrim (p.song.getD "") = "" || artists0.isEmpty
    || !jsTruthyStr p.album || (p.album.getD "") = ""
  if needMeta then
    match metadata with
    | some m =>
      if m.found then
        let song1 := if jsTruthyStr p.song then p.song else m.song
        let artists1 := if artists0.isEmpty then m.artists.getD [] else artists0
        let artist1 := if !artists1.isEmpty then some (joinSep ", " artists1) else p.artist
        let album1 := if jsTruthyStr p.album then p.album else m.album
        let duration1 := if jsTruthyStr p.duration then p.duration else m.duration
        (song1, artists1, artist1, album1, duration1)
      else (p.song, artists0, p.artist, p.album, p.duration)
    | none => (p.song, artists0, p.artist, p.album, p.duration)
  else (p.song, artists0, p.artist, p.album, p.duration)

/-- LyricsService.getLyrics: reject when the videoId is missing; fill
song, artists, album and duration from the metadata resolver when
incomplete (resolveIdentity); answer with the no-identity message when
song or artist is still missing; otherwise dispatch the three providers
(GoLyricsApi only when a duration is known), await GoLyricsApi and
Musixmatch (a Musixmatch rejection is caught into mxmError, a
GoLyricsApi rejection propagates), wait the lrcLibGraceMs race for
LrcLib (an in-time LrcLib rejection propagates through the awaited
race), and assemble the aggregate from whatever resolved in time. -/
def LyricsService.getLyrics (p : RequestParams) (metadata : Option Metadata)
    (out : ProviderOutcomes) : OrchResult :=
  if jsTruthyStr p.videoId = false then .thrown "Invalid Video Id"
  else
    match resolveIdentity p metadata with
    | (song', artists', artist', album', duration') =>
      if !jsTruthyStr song' || !jsTruthyStr artist' then
        .missingIdentity song' artist' album' duration' p.videoId
      else
        let goIssued := jsTruthyStr duration'
        if goIssued && (match out.golyrics with | .error _ => true | .ok _ => false) then
          .thrown (match out.golyrics with | .error e => e | .ok _ => "")
        else
          let goTtml :=
            if goIssued then
              match out.golyrics with
              | .ok (some r) => r.ttml
              | _ => none
            else none
          let _grace := lrcLibGraceMs (jsTruthyStr goTtml)
          if out.lrclibResolvedInTime
              && (match out.lrclib with | .error _ => true | .ok _ => false) then
            .thrown (match out.lrclib with | .error e => e | .ok _ => "")
          else
            let lrc :=
              if out.lrclibResolvedInTime then
                match out.lrclib with
                | .ok v => v
                | .error _ => none
              else none
            let mxmVal := match out.musixmatch with | .ok v => v | .error _ => none
            let base : UnifiedResponse :=
              { song := song', artist := artist', album := album', duration := duration',
                videoId := p.videoId,
                debugInfo := (match mxmVal with | some r => r.debugInfo | none => none),
                musixmatchWordByWordLyrics := (match mxmVal with | some r => r.richSynced | none => none),
                musixmatchSyncedLyrics := (match mxmVal with | some r => r.synced | none => none),
                lrclibSyncedLyrics := (match lrc with | some r => r.synced | none => none),
                lrclibPlainLyrics := (match lrc with | some r => r.unsynced | none => none),
                goLyricsApiTtml := goTtml }
            let found := isTruthy base.musixmatchWordByWordLyrics
              || isTruthy base.lrclibSyncedLyrics || isTruthy base.musixmatchSyncedLyrics
              || isTruthy base.goLyricsApiTtml
            if found then
              .response { base with
                  song := song',
                  artist := some (joinSep ", " artists'),
                  album := (if jsTruthyStr album' then album' else none) }
            else .response base

/-! ### Lemmas about the diff and the sample walk -/

/-- On token sequences with pointwise equal comparator keys, the LCS diff
is a single matched run holding the whole right sequence (or empty when
both sequences are empty), provided the fuel covers the left length. -/
theorem diffAux_of_keys_eq : ∀ (l r : List MatchingTimedWord) (n : Nat),
    l.map tokKey = r.map tokKey → l.length ≤ n →
    diffAux n l r = if r.isEmpty then [] else [⟨false, false, r⟩]
  | [], r, n, h, _ => by
    have hr : r = [] := by
      have := h.symm
      simpa using this
    subst hr
    cases n <;> simp [diffAux]
  | a :: as, r, n, h, hn => by
    cases r with
    | nil => simp at h
    | cons b bs =>
      cases n with
      | zero => simp at hn
      | succ m =>
        simp only [List.map_cons, List.cons.injEq] at h
        have ih := diffAux_of_keys_eq as bs m h.2 (by
          simpa using Nat.lt_succ_iff.mp (Nat.lt_of_lt_of_le (Nat.lt_succ_self _) hn))
        cases bs with
        | nil =>
          have hras : as = [] := by
            have := congrArg List.length h.2
            simpa using this
          subst hras
          simp [diffAux, h.1, ih, consChange]
        | cons x xs =>
          simp [diffAux, h.1, ih, consChange]

/-- The sample walk over one matched run spanning two equally long
sequences collects exactly the offsets of the pointwise pairs in which
both tokens carry a real timestamp. -/
theorem collectWalk_single_match (l r : List MatchingTimedWord)
    (hlen : l.length = r.length) :
    collectWalk l r [⟨false, false, r⟩] 0 0 =
      ((l.zip r).filterMap fun p =>
        if p.1.wordTime ≠ -1 ∧ p.2.wordTime ≠ -1 then some (p.2.wordTime - p.1.wordTime)
        else none,
       [⟨"MATCH", changeText r⟩]) := by
  simp [collectWalk, List.take_of_length_le, hlen.ge, hlen.le]

/-- For token sequences with pointwise equal keys, the collected samples
are the pointwise offsets of pairs in which both sides carry a real
timestamp. -/
theorem alignSamples_of_keys_eq (l r : List MatchingTimedWord)
    (h : l.map tokKey = r.map tokKey) :
    alignSamples l r =
      (l.zip r).filterMap fun p =>
        if p.1.wordTime ≠ -1 ∧ p.2.wordTime ≠ -1 then some (p.2.wordTime - p.1.wordTime)
        else none := by
  have hlen : l.length = r.length := by
    have := congrArg List.length h
    simpa using this
  have hdiff := diffAux_of_keys_eq l r (l.length + r.length) h (by omega)
  cases r with
  | nil =>
    have hl : l = [] := by simpa using hlen
    subst hl
    simp [alignSamples, diffArrays, hdiff, collectWalk]
  | cons b bs =>
    rw [alignSamples, diffArrays, hdiff]
    simp only [List.isEmpty_cons, Bool.false_eq_true, if_false]
    rw [collectWalk_single_match l (b :: bs) hlen]

/-- A nonempty constant sample list has mean equal to the constant and
population variance zero. -/
theorem meanAndVariance_const (arr : List ℚ) (c : ℚ)
    (hne : arr ≠ []) (hconst : ∀ x ∈ arr, x = c) :
    meanAndVariance arr = ⟨.num c, .num 0⟩ := by
  have harr : arr = List.replicate arr.length c :=
    List.eq_replicate_iff.mpr ⟨rfl, hconst⟩
  have hlen : arr.length ≠ 0 := by
    intro h0
    exact hne (List.length_eq_zero.mp h0)
  have hcast : ((arr.length : ℚ)) ≠ 0 := by exact_mod_cast hlen
  have hmean : sampleMean arr = c := by
    rw [sampleMean]
    nth_rewrite 1 [harr]
    rw [List.sum_replicate, nsmul_eq_mul]
    field_simp
  have hvar : sampleVariance arr = 0 := by
    rw [sampleVariance, hmean]
    nth_rewrite 1 [harr]
    simp [List.map_replicate, List.sum_replicate]
  obtain ⟨x, xs, hx⟩ := List.exists_cons_of_ne_nil hne
  subst hx
  rw [meanAndVariance, hmean, hvar]

/-- Token sequences with identical words have pointwise equal comparator
keys. -/
theorem tokKey_map_eq_of_words_eq (l r : List MatchingTimedWord)
    (h : l.map MatchingTimedWord.word = r.map MatchingTimedWord.word) :
    l.map tokKey = r.map tokKey := by
  have hl : l.map tokKey = (l.map MatchingTimedWord.word).map jsToLower := by
    simp [tokKey, List.map_map, Function.comp]
  have hr : r.map tokKey = (r.map MatchingTimedWord.word).map jsToLower := by
    simp [tokKey, List.map_map, Function.comp]
  rw [hl, hr, h]

/-- The rejection shape of alignWithBasic: when both sequences pass the
length guard and the variance comparison fails (either because the
variance is at least 1.5 or because it is NaN), the word-level transcript
is discarded and the diagnostics are attached. -/
theorem alignWithBasic_reject (lrcStr : String) (parsedToks richToks : List MatchingTimedWord)
    (mxmSynced : Option String)
    (hl : parsedToks.length ≤ 5000) (hr : richToks.length ≤ 5000)
    (hlt : jsLtNum (meanAndVariance (alignSamples parsedToks richToks)).variance (3 / 2) = false) :
    alignWithBasic lrcStr parsedToks richToks mxmSynced =
      ⟨none, mxmSynced, none,
        some ⟨some ⟨(meanAndVariance (alignSamples parsedToks richToks)).mean,
          (meanAndVariance (alignSamples parsedToks richToks)).variance,
          alignSamples parsedToks richToks,
          (collectWalk parsedToks richToks (diffArrays parsedToks richToks) 0 0).2⟩,
          some "basic lyrics matched but variance is too high; using basic lyrics instead"⟩,
        none⟩ := by
  rw [alignWithBasic, if_neg (by omega)]
  simp only [alignSamples] at hlt
  simp only [hlt, Bool.false_eq_true, if_false]
  rfl

/-! ### Claim theorems -/

/-- C1: for token sequences with identical words (length at most 5000)
whose pointwise pairs, whenever both carry a real timestamp, differ by
the same constant offset c (and at least one such pair exists), the
alignment computes mean c and variance 0, accepts the fusion, and
returns the word-level transcript prefixed with one global offset
annotation equal to the mean. -/
theorem align_constant_offset_accepted
    (left right : List MatchingTimedWord) (lrcStr basicSynced : String)
    (mxmSynced : Option String) (c : ℚ)
    (hwords : left.map MatchingTimedWord.word = right.map MatchingTimedWord.word)
    (hlen : left.length ≤ 5000)
    (hbasic : basicSynced ≠ "")
    (hoff : ∀ p ∈ left.zip right, p.1.wordTime ≠ -1 → p.2.wordTime ≠ -1 →
      p.2.wordTime - p.1.wordTime = c)
    (hex : ∃ p ∈ left.zip right, p.1.wordTime ≠ -1 ∧ p.2.wordTime ≠ -1) :
    meanAndVariance (alignSamples left right) = ⟨.num c, .num 0⟩ ∧
    getLrcWordByWordCore lrcStr right (some basicSynced) left mxmSynced =
      ⟨some ("[offset:" ++ addPlusSign (.num c) ++ "]\n" ++ lrcStr), mxmSynced, none,
        some ⟨some ⟨.num c, .num 0, alignSamples left right, [⟨"MATCH", changeText right⟩]⟩,
          none⟩, none⟩ := by
  have hkeys := tokKey_map_eq_of_words_eq left right hwords
  have hlens : left.length = right.length := by
    have := congrArg List.length hwords
    simpa using this
  have hsamp := alignSamples_of_keys_eq left right hkeys
  have hall : ∀ x ∈ alignSamples left right, x = c := by
    intro x hx
    rw [hsamp] at hx
    obtain ⟨p, hp, hpx⟩ := List.mem_filterMap.mp hx
    by_cases h1 : p.1.wordTime ≠ -1 ∧ p.2.wordTime ≠ -1
    · rw [if_pos h1] at hpx
      rw [← Option.some.inj hpx]
      exact hoff p hp h1.1 h1.2
    · rw [if_neg h1] at hpx
      simp at hpx
  have hmem : c ∈ alignSamples left right := by
    obtain ⟨p, hp, h1, h2⟩ := hex
    rw [hsamp]
    exact List.mem_filterMap.mpr ⟨p, hp, by rw [if_pos ⟨h1, h2⟩, hoff p hp h1 h2]⟩
  have hne : alignSamples left right ≠ [] := List.ne_nil_of_mem hmem
  have hmv := meanAndVariance_const (alignSamples left right) c hne hall
  refine ⟨hmv, ?_⟩
  have hrne : right ≠ [] := by
    obtain ⟨p, hp, -⟩ := hex
    intro h
    subst h
    simp at hp
  have hdiff : diffArrays left right = [⟨false, false, right⟩] := by
    rw [diffArrays, diffAux_of_keys_eq left right _ hkeys (by omega)]
    simp [List.isEmpty_iff, hrne]
  have hwalk := collectWalk_single_match left right hlens
  rw [getLrcWordByWordCore]
  rw [if_pos (by simp [jsTruthyStr, hbasic])]
  rw [alignWithBasic]
  rw [if_neg (by omega)]
  simp only [hdiff, hwalk]
  have hsampeq : (left.zip right).filterMap (fun p =>
      if p.1.wordTime ≠ -1 ∧ p.2.wordTime ≠ -1 then some (p.2.wordTime - p.1.wordTime)
      else none) = alignSamples left right := hsamp.symm
  rw [hsampeq, hmv]
  have : jsLtNum (JsNum.num 0) (3 / 2) = true := by norm_num [jsLtNum]
  rw [if_pos this]

/-- Witness for C1 at a concrete input: a one-word pair shifted by two
seconds. -/
theorem align_constant_offset_accepted_witness :
    meanAndVariance (alignSamples [⟨"hello", 1⟩] [⟨"hello", 3⟩]) = ⟨.num 2, .num 0⟩ ∧
    getLrcWordByWordCore "X" [⟨"hello", 3⟩] (some "B") [⟨"hello", 1⟩] (some "S") =
      ⟨some ("[offset:" ++ addPlusSign (.num 2) ++ "]\n" ++ "X"), some "S", none,
        some ⟨some ⟨.num 2, .num 0, alignSamples [⟨"hello", 1⟩] [⟨"hello", 3⟩],
          [⟨"MATCH", changeText [⟨"hello", 3⟩]⟩]⟩, none⟩, none⟩ := by
  apply align_constant_offset_accepted
  · decide
  · decide
  · decide
  · intro p hp h1 h2
    simp only [List.zip_cons_cons, List.zip_nil_right, List.mem_singleton] at hp
    subst hp
    norm_num
  · refine ⟨(⟨"hello", 1⟩, ⟨"hello", 3⟩), by simp, by norm_num, by norm_num⟩

/-- C2 counterexample: a pair of transcripts with a present line-level
transcript ("x") and samples of variance 25 is rejected, but the
returned result does not carry that line-level transcript as the synced
result: synced comes from the Musixmatch basic-subtitle fetch, here
absent, so the result carries no synced transcript at all. -/
theorem align_high_variance_drops_line_transcript :
    (getLrcWordByWordCore "W" [⟨"a", 0⟩, ⟨"b", 0⟩] (some "x") [⟨"a", 0⟩, ⟨"b", 10⟩] none).richSynced
      = none ∧
    (getLrcWordByWordCore "W" [⟨"a", 0⟩, ⟨"b", 0⟩] (some "x") [⟨"a", 0⟩, ⟨"b", 10⟩] none).synced
      = none := by
  have hx : ¬(("x" : String) = "") := by decide
  norm_num [getLrcWordByWordCore, jsTruthyStr, alignWithBasic, diffArrays, diffAux, lcsLen,
    lcsAux, tokKey, jsToLower, jsCharLower, consChange, collectWalk, changeText, meanAndVariance,
    sampleMean, sampleVariance, jsLtNum, List.filterMap_cons, hx]

/-- C2 (amended): with a truthy line-level transcript, sequences within
the length guard, and at least one offset sample with population
variance at least 1.5, the fusion is rejected: no word-level transcript,
the synced result is the Musixmatch basic-subtitle transcript (which is
the line-level alignment input only when it was the source of that
input), and the diagnostics with mean, variance, samples and diff are
attached. -/
theorem align_high_variance_rejected
    (lrcStr basicSynced : String) (parsedToks richToks : List MatchingTimedWord)
    (mxmSynced : Option String)
    (hbasic : basicSynced ≠ "")
    (hl : parsedToks.length ≤ 5000) (hr : richToks.length ≤ 5000)
    (hne : alignSamples parsedToks richToks ≠ [])
    (hvar : 3 / 2 ≤ sampleVariance (alignSamples parsedToks richToks)) :
    getLrcWordByWordCore lrcStr richToks (some basicSynced) parsedToks mxmSynced =
      ⟨none, mxmSynced, none,
        some ⟨some ⟨.num (sampleMean (alignSamples parsedToks richToks)),
          .num (sampleVariance (alignSamples parsedToks richToks)),
          alignSamples parsedToks richToks,
          (collectWalk parsedToks richToks (diffArrays parsedToks richToks) 0 0).2⟩,
          some "basic lyrics matched but variance is too high; using basic lyrics instead"⟩,
        none⟩ := by
  obtain ⟨x, xs, hx⟩ := List.exists_cons_of_ne_nil hne
  have hmv : meanAndVariance (alignSamples parsedToks richToks) =
      ⟨.num (sampleMean (alignSamples parsedToks richToks)),
       .num (sampleVariance (alignSamples parsedToks richToks))⟩ := by
    rw [hx]
    rfl
  have hlt : jsLtNum (meanAndVariance (alignSamples parsedToks richToks)).variance (3 / 2)
      = false := by
    rw [hmv]
    simp only [jsLtNum, decide_eq_false_iff_not, not_lt]
    exact hvar
  rw [getLrcWordByWordCore, if_pos (by simp [jsTruthyStr, hbasic])]
  rw [alignWithBasic_reject lrcStr parsedToks richToks mxmSynced hl hr hlt, hmv]

/-- Witness for the amended C2 at a concrete input with variance 25 and
a present Musixmatch subtitle transcript. -/
theorem align_high_variance_rejected_witness :
    getLrcWordByWordCore "W" [⟨"a", 0⟩, ⟨"b", 0⟩] (some "x") [⟨"a", 0⟩, ⟨"b", 10⟩] (some "S") =
      ⟨none, some "S", none,
        some ⟨some ⟨.num (sampleMean (alignSamples [⟨"a", 0⟩, ⟨"b", 10⟩] [⟨"a", 0⟩, ⟨"b", 0⟩])),
          .num (sampleVariance (alignSamples [⟨"a", 0⟩, ⟨"b", 10⟩] [⟨"a", 0⟩, ⟨"b", 0⟩])),
          alignSamples [⟨"a", 0⟩, ⟨"b", 10⟩] [⟨"a", 0⟩, ⟨"b", 0⟩],
          (collectWalk [⟨"a", 0⟩, ⟨"b", 10⟩] [⟨"a", 0⟩, ⟨"b", 0⟩]
            (diffArrays [⟨"a", 0⟩, ⟨"b", 10⟩] [⟨"a", 0⟩, ⟨"b", 0⟩]) 0 0).2⟩,
          some "basic lyrics matched but variance is too high; using basic lyrics instead"⟩,
        none⟩ := by
  apply align_high_variance_rejected
  · decide
  · decide
  · decide
  · norm_num [alignSamples, diffArrays, diffAux, lcsLen, lcsAux, tokKey, jsToLower, jsCharLower,
      consChange, collectWalk, changeText, List.filterMap_cons]
    exact List.cons_ne_nil _ _
  · norm_num [alignSamples, diffArrays, diffAux, lcsLen, lcsAux, tokKey, jsToLower, jsCharLower,
      consChange, collectWalk, changeText, List.filterMap_cons, sampleVariance, sampleMean]

/-- C3 counterexample: with a present synced line-level transcript whose
diff against the word-level tokens yields zero offset samples, the code
does not return the bare word-level transcript with the no-synced-lyrics
annotation; it takes the NaN-variance rejection branch instead. -/
theorem align_no_samples_takes_reject_branch :
    (getLrcWordByWordCore "W" [⟨"goodbye", 5⟩] (some "s") [⟨"hello", 10⟩] none).richSynced
      = none ∧
    (getLrcWordByWordCore "W" [⟨"goodbye", 5⟩] (some "s") [⟨"hello", 10⟩] none).debugInfo.map
        DebugInfo.comment
      = some (some "basic lyrics matched but variance is too high; using basic lyrics instead") := by
  have hx : ¬(("s" : String) = "") := by decide
  norm_num [getLrcWordByWordCore, jsTruthyStr, alignWithBasic, diffArrays, diffAux, lcsLen,
    lcsAux, tokKey, jsToLower, jsCharLower, consChange, collectWalk, changeText, meanAndVariance,
    sampleMean, sampleVariance, jsLtNum, List.filterMap_cons, hx]

/-- C3 (amended): the bare word-level transcript with the
"no synced basic lyrics found" annotation and no offset is returned
exactly when no truthy synced line-level transcript is available (so no
diff runs and no samples exist); when a synced line-level transcript is
present but the diff yields zero samples, mean and variance are NaN, the
NaN comparison fails, and the fusion is rejected in favour of the
line-level fallback. -/
theorem align_no_samples_behavior (lrcStr : String)
    (richToks parsedToks : List MatchingTimedWord)
    (basicSynced mxmSynced : Option String) :
    (jsTruthyStr basicSynced = false →
      getLrcWordByWordCore lrcStr richToks basicSynced parsedToks mxmSynced =
        ⟨some lrcStr, none, none, some ⟨none, some "no synced basic lyrics found"⟩, none⟩) ∧
    (jsTruthyStr basicSynced = true → parsedToks.length ≤ 5000 → richToks.length ≤ 5000 →
      alignSamples parsedToks richToks = [] →
      getLrcWordByWordCore lrcStr richToks basicSynced parsedToks mxmSynced =
        ⟨none, mxmSynced, none,
          some ⟨some ⟨.nan, .nan, [],
            (collectWalk parsedToks richToks (diffArrays parsedToks richToks) 0 0).2⟩,
            some "basic lyrics matched but variance is too high; using basic lyrics instead"⟩,
          none⟩) := by
  constructor
  · intro hfalse
    rw [getLrcWordByWordCore, hfalse]
    simp
  · intro htrue hl hr hnil
    have hmv : meanAndVariance (alignSamples parsedToks richToks) = ⟨.nan, .nan⟩ := by
      rw [hnil]
      rfl
    have hlt : jsLtNum (meanAndVariance (alignSamples parsedToks richToks)).variance (3 / 2)
        = false := by
      rw [hmv]
      rfl
    rw [getLrcWordByWordCore, htrue]
    simp only [if_true]
    rw [alignWithBasic_reject lrcStr parsedToks richToks mxmSynced hl hr hlt, hmv, hnil]

/-- Witness for the amended C3: the no-transcript case at concrete
inputs, and the zero-samples rejection at disjoint one-token inputs. -/
theorem align_no_samples_behavior_witness :
    (getLrcWordByWordCore "W" [⟨"hello", 10⟩] none [⟨"hello", 5⟩] none =
      ⟨some "W", none, none, some ⟨none, some "no synced basic lyrics found"⟩, none⟩) ∧
    (getLrcWordByWordCore "W" [⟨"goodbye", 5⟩] (some "s") [⟨"hello", 10⟩] (some "S") =
      ⟨none, some "S", none,
        some ⟨some ⟨.nan, .nan, [],
          (collectWalk [⟨"hello", 10⟩] [⟨"goodbye", 5⟩]
            (diffArrays [⟨"hello", 10⟩] [⟨"goodbye", 5⟩]) 0 0).2⟩,
          some "basic lyrics matched but variance is too high; using basic lyrics instead"⟩,
        none⟩) := by
  constructor
  · exact (align_no_samples_behavior "W" [⟨"hello", 10⟩] [⟨"hello", 5⟩] none none).1 (by decide)
  · exact (align_no_samples_behavior "W" [⟨"goodbye", 5⟩] [⟨"hello", 10⟩] (some "s") (some "S")).2
      (by decide) (by decide) (by decide)
      (by norm_num [alignSamples, diffArrays, diffAux, lcsLen, lcsAux, tokKey, jsToLower,
        jsCharLower, consChange, collectWalk, changeText, List.filterMap_cons])

/-- C4: for every environment, call context and videoId -- including
cache states with no negative row, where getNegative reports hit false --
Musixmatch.getLrc returns none at the step-1 negative-cache check,
because the NegResult record is an object and hence truthy; only the
negative-cache read is performed, so the positive cache is never
consulted and no upstream call is issued. -/
theorem musixmatch_getLrc_always_none (env : Env) (ctx : MxmFetchCtx) (videoId : String) :
    Musixmatch.getLrc env ctx videoId = (none, [.negativeCacheRead]) := rfl

/-- C5: an entry created exactly ttl plus one seconds ago is a stale hit,
an entry created now is a fresh hit, and a missing entry is a miss, for
the platform-specific TTL chosen by getNegative. -/
theorem getNegative_staleness (env : Env) (db : NegDB) (now : Int)
    (p : SourcePlatform) (id : String) :
    (db p id = some (now - (negCacheTtl env p + 1)) →
      CacheService.getNegative env db now p id = ⟨true, true⟩) ∧
    (db p id = some now → CacheService.getNegative env db now p id = ⟨true, false⟩) ∧
    (db p id = none → CacheService.getNegative env db now p id = ⟨false, false⟩) := by
  have httl : 0 ≤ negCacheTtl env p := by
    rw [negCacheTtl]
    split_ifs <;> exact Int.natCast_nonneg _
  refine ⟨?_, ?_, ?_⟩ <;> intro h <;> simp only [CacheService.getNegative, h]
  · rw [if_pos (by omega)]
  · rw [if_neg (by omega)]

/-- Witness for C5: all three cases at concrete states, with the lrclib
default TTL of 86400 seconds. -/
theorem getNegative_staleness_witness :
    CacheService.getNegative ⟨none, none, none, none⟩
      (fun p i => if p = .lrclib ∧ i = "v" then some 913599 else none) 1000000 .lrclib "v"
      = ⟨true, true⟩ ∧
    CacheService.getNegative ⟨none, none, none, none⟩
      (fun p i => if p = .lrclib ∧ i = "v" then some 1000000 else none) 1000000 .lrclib "v"
      = ⟨true, false⟩ ∧
    CacheService.getNegative ⟨none, none, none, none⟩ (fun _ _ => none) 1000000
      .youtube_music "v" = ⟨false, false⟩ :=
  ⟨(getNegative_staleness _ _ _ _ _).1 (by norm_num [negCacheTtl]),
   (getNegative_staleness _ _ _ _ _).2.1 (by simp),
   (getNegative_staleness _ _ _ _ _).2.2 rfl⟩

/-- C6: saving any content through saveGoLyrics and immediately reading
the same (platform, id) key through getGoLyrics returns exactly the
saved content after decompression, with the timestamp just written. -/
theorem saveGoLyrics_getGoLyrics_roundtrip (st : CacheState) (now : Int) (data : SaveLyricsData) :
    CacheService.getGoLyrics (CacheService.saveGoLyrics st now data)
      data.source_platform data.source_track_id =
      some ([⟨.ttml, data.lyric_content⟩], now) := by
  rw [CacheService.saveGoLyrics, CacheService.getGoLyrics]
  simp [pako.deflate, pako.inflate]

/-- C7: the LrcLib fetch classifies outcomes as the spec demands: 404
yields none and a negative-cache upsert; any other non-success status, a
transport error, or a parse error of a successful response yields none
with the negative cache untouched; a successfully parsed response yields
the lyrics and deletes the negative row for the key. -/
theorem lrclib_fetch_classification (db : NegDB) (now : Int) (videoId : String) :
    (∀ j, LrcLib.fetchAndSave db now videoId (.response 404 j) =
      (none, CacheService.saveNegative db now .lrclib videoId)) ∧
    (∀ s j, s ≠ 404 → httpOk s = false →
      LrcLib.fetchAndSave db now videoId (.response s j) = (none, db)) ∧
    (LrcLib.fetchAndSave db now videoId .transportError = (none, db)) ∧
    (∀ s, httpOk s = true →
      LrcLib.fetchAndSave db now videoId (.response s none) = (none, db)) ∧
    (∀ s j, httpOk s = true →
      LrcLib.fetchAndSave db now videoId (.response s (some j)) =
        (some ⟨none, j.syncedLyrics, j.plainLyrics, none, none⟩,
          deleteNegativeRow db .lrclib videoId) ∧
      (deleteNegativeRow db .lrclib videoId) .lrclib videoId = none) := by
  have h404 : ∀ s, httpOk s = true → s ≠ 404 := by
    intro s hs
    simp only [httpOk, decide_eq_true_eq] at hs
    omega
  refine ⟨?_, ?_, rfl, ?_, ?_⟩
  · intro j
    rfl
  · intro s j hs hok
    simp only [LrcLib.fetchAndSave]
    rw [if_neg (by simpa using hs)]
    simp [hok]
  · intro s hs
    simp only [LrcLib.fetchAndSave]
    rw [if_neg (by simpa using h404 s hs)]
    simp [hs]
  · intro s j hs
    constructor
    · simp only [LrcLib.fetchAndSave]
      rw [if_neg (by simpa using h404 s hs)]
      simp [hs]
    · simp [deleteNegativeRow]

/-- Witness for C7: all branches at concrete inputs. -/
theorem lrclib_fetch_classification_witness :
    (LrcLib.fetchAndSave (fun _ _ => some 0) 5 "v" (.response 404 none) =
      (none, CacheService.saveNegative (fun _ _ => some 0) 5 .lrclib "v")) ∧
    (LrcLib.fetchAndSave (fun _ _ => some 0) 5 "v" (.response 500 none) =
      (none, fun _ _ => some 0)) ∧
    (LrcLib.fetchAndSave (fun _ _ => some 0) 5 "v" .transportError =
      (none, fun _ _ => some 0)) ∧
    (LrcLib.fetchAndSave (fun _ _ => some 0) 5 "v" (.response 200 none) =
      (none, fun _ _ => some 0)) ∧
    (LrcLib.fetchAndSave (fun _ _ => some 0) 5 "v"
        (.response 200 (some ⟨some "sync", some "plain"⟩)) =
      (some ⟨none, some "sync", some "plain", none, none⟩,
        deleteNegativeRow (fun _ _ => some 0) .lrclib "v")) :=
  ⟨(lrclib_fetch_classification _ 5 "v").1 none,
   (lrclib_fetch_classification _ 5 "v").2.1 500 none (by decide) (by decide),
   (lrclib_fetch_classification _ 5 "v").2.2.1,
   (lrclib_fetch_classification _ 5 "v").2.2.2.1 200 (by decide),
   ((lrclib_fetch_classification _ 5 "v").2.2.2.2 200 ⟨some "sync", some "plain"⟩ (by decide)).1⟩

/-- C8 counterexample: a request with a videoId and a duration whose
GoLyricsApi provider call rejects makes the whole orchestrator call
reject, because that promise is awaited by Promise.all without a catch
handler. -/
theorem orchestrator_golyrics_rejection_propagates :
    LyricsService.getLyrics
      ⟨some "v", some "A", some "S", some "Al", some "200", false⟩ none
      ⟨.ok none, false, .ok none, .error "boom"⟩ = .thrown "boom" := by
  decide

/-- C8 (amended): when the videoId is present the orchestrator returns a
best-effort aggregate without raising, provided the markup-synced
provider call and the line-provider call resolve instead of rejecting
(their results may be empty, and the word-level provider may fail
arbitrarily: its rejection is caught); a request without a truthy
videoId is rejected with the Invalid Video Id error. -/
theorem orchestrator_best_effort (p : RequestParams) (metadata : Option Metadata)
    (lv gv : Option LyricsResponse) (mxm : Except String (Option LyricsResponse))
    (inTime : Bool) :
    (jsTruthyStr p.videoId = true →
      (LyricsService.getLyrics p metadata ⟨.ok lv, inTime, mxm, .ok gv⟩).isError = false) ∧
    (jsTruthyStr p.videoId = false →
      LyricsService.getLyrics p metadata ⟨.ok lv, inTime, mxm, .ok gv⟩ =
        .thrown "Invalid Video Id") := by
  constructor
  · intro hvid
    rcases hres : resolveIdentity p metadata with ⟨song', artists', artist', album', duration'⟩
    simp only [LyricsService.getLyrics, hvid, Bool.true_eq_false, if_false, hres, Bool.and_false,
      Bool.false_eq_true]
    repeat' split
    all_goals rfl
  · intro hvid
    rw [LyricsService.getLyrics, if_pos hvid]

/-- Witness for the amended C8: a full request in which the word-level
provider rejects and the other providers find nothing still yields a
non-error aggregate, and the same request without a videoId throws. -/
theorem orchestrator_best_effort_witness :
    (LyricsService.getLyrics ⟨some "v", some "A", some "S", some "Al", some "200", false⟩ none
      ⟨.ok none, true, .error "mxm down", .ok none⟩).isError = false ∧
    LyricsService.getLyrics ⟨none, some "A", some "S", some "Al", some "200", false⟩ none
      ⟨.ok none, true, .error "mxm down", .ok none⟩ = .thrown "Invalid Video Id" :=
  ⟨(orchestrator_best_effort ⟨some "v", some "A", some "S", some "Al", some "200", false⟩
      none none none (.error "mxm down") true).1 (by decide),
   (orchestrator_best_effort ⟨none, some "A", some "S", some "Al", some "200", false⟩
      none none none (.error "mxm down") true).2 (by decide)⟩

/-- C9 counterexample: the grace period waited for the line provider is
not longer when no markup-synced result was found: it is 0.5 versus 4. -/
theorem lrcLibGrace_not_longer_without_ttml :
    ¬ (lrcLibGraceMs false > lrcLibGraceMs true) := by
  norm_num [lrcLibGraceMs]

/-- C9 (amended): the grace period waited for the still-pending line
provider is strictly shorter when no markup-synced result was found
(0.5) than when one was found (4). -/
theorem lrcLibGrace_shorter_without_ttml :
    lrcLibGraceMs false < lrcLibGraceMs true := by
  norm_num [lrcLibGraceMs]

/-- C10 counterexample: the Musixmatch positive-cache handling of a stale
entry with a successful random draw does not serve the cached content
with a background refetch: it falls through to the blocking upstream
fetch of step 3 (the synchronous variant). -/
theorem musixmatch_stale_cache_blocks :
    Musixmatch.positiveCacheStep ⟨none, none, none, none⟩ 1000000 0
      (some ⟨[⟨.rich_sync, "R"⟩], 0⟩) = .fetchUpstream := by
  norm_num [Musixmatch.positiveCacheStep, mxmRefetchThreshold, mxmRefetchChance]

/-- C10 (amended): the GoLyricsApi getLrc serves a stale positive-cache
hit (no negative hit, entry older than the threshold, draw below the
chance) by returning the cached content immediately and registering only
a background refetch; the Musixmatch positive-cache path instead performs
a blocking synchronous refetch in that situation (and is unreachable
because of the step-1 negative-cache truthiness check). -/
theorem golyrics_stale_cache_swr (env : Env) (now : Int) (draw : ℚ)
    (negRes : NegResult) (lyrics : List Lyric) (lastUpdatedAt : Int)
    (hmiss : negRes.hit = false)
    (hstale : now - lastUpdatedAt > goRefetchThreshold env)
    (hdraw : draw < goRefetchChance env) :
    GoLyricsApi.getLrcCore env now draw negRes (some (lyrics, lastUpdatedAt)) =
      .value (some ⟨none, none, none, some ⟨none, some "goLyricsApi cache"⟩, lastTtml lyrics⟩)
        true := by
  rw [GoLyricsApi.getLrcCore]
  simp only [hmiss, Bool.false_eq_true, if_false]
  simp [hstale, hdraw]

/-- Witness for the amended C10: concrete stale positive entry under the
default configuration, served from cache with a background refetch. -/
theorem golyrics_stale_cache_swr_witness :
    GoLyricsApi.getLrcCore ⟨none, none, none, none⟩ 10 0 ⟨false, false⟩
      (some ([⟨.ttml, "T"⟩], 0)) =
      .value (some ⟨none, none, none, some ⟨none, some "goLyricsApi cache"⟩,
        lastTtml [⟨.ttml, "T"⟩]⟩) true :=
  golyrics_stale_cache_swr ⟨none, none, none, none⟩ 10 0 ⟨false, false⟩ [⟨.ttml, "T"⟩] 0
    rfl (by norm_num [goRefetchThreshold]) (by norm_num [goRefetchChance])

end BetterLyrics
